import Mathlib

/-
Verification of the Rust_EVM interpreter (panditdhamdhere/Rust_EVM).

Shallow embedding conventions:
  * Uint256 (src/types/uint256.rs) wraps num_bigint::BigUint, an unbounded
    natural number; it is embedded as Nat.  Operations that panic in Rust
    (BigUint underflow in Sub, copy_from_slice length mismatch in
    to_bytes_be) are embedded as Option, none standing for the panic.
  * u64 / usize quantities (gas, lengths, counters) are embedded as Nat;
    the narrowing conversions to_u64 / to_u32 / to_u8 take the least
    significant machine digit of the BigUint, i.e. reduce mod 2^64 / 2^32 /
    2^8, and are embedded accordingly.
  * The stack (src/stack/mod.rs, a Vec with the top at the end) is embedded
    as a List with the top at the head, so peek_at d = List.get? d.
  * HashMap (account storage, world state) is embedded as an association
    list whose insert places the key at the front after erasing it.
  * Rust Result is embedded as Except; an execution step yields EvmRes,
    which adds a constructor for Rust panics.
-/

namespace RustEVM

/-- Uint256 is a newtype over the unbounded BigUint (src/types/uint256.rs line 8). -/
abbrev Uint256 := Nat

/-- Embeds impl Add for Uint256: BigUint addition, no reduction mod 2^256
(src/types/uint256.rs lines 127-133). -/
def Uint256.add (a b : Uint256) : Uint256 := a + b

/-- Embeds impl Sub for Uint256: BigUint subtraction, which panics when the
subtrahend exceeds the minuend (src/types/uint256.rs lines 135-141); the
panic is modelled as none. -/
def Uint256.sub (a b : Uint256) : Option Uint256 :=
  if b ≤ a then some (a - b) else none

/-- Embeds impl Mul for Uint256: BigUint multiplication, no reduction
(src/types/uint256.rs lines 143-149). -/
def Uint256.mul (a b : Uint256) : Uint256 := a * b

/-- Embeds impl Div for Uint256 (src/types/uint256.rs lines 151-157); BigUint
division panics on a zero divisor, modelled as none.  The executor guards the
zero case before calling it. -/
def Uint256.div (a b : Uint256) : Option Uint256 :=
  if b = 0 then none else some (a / b)

/-- Embeds impl Rem for Uint256 (src/types/uint256.rs lines 159-165). -/
def Uint256.rem (a b : Uint256) : Option Uint256 :=
  if b = 0 then none else some (a % b)

/-- Embeds Uint256::to_u64: the first 64-bit digit of the BigUint, i.e. the
value reduced mod 2^64 (src/types/uint256.rs lines 84-87). -/
def Uint256.to_u64 (x : Uint256) : Nat := x % 2 ^ 64

/-- Embeds Uint256::to_u32: the first 32-bit digit (src/types/uint256.rs
lines 89-92). -/
def Uint256.to_u32 (x : Uint256) : Nat := x % 2 ^ 32

/-- Embeds Uint256::to_u8: the first 32-bit digit cast to u8
(src/types/uint256.rs lines 94-97). -/
def Uint256.to_u8 (x : Uint256) : Nat := x % 2 ^ 8

/-- Embeds num_bigint bits(): 0 for zero, otherwise the index of the highest
set bit plus one (used by Uint256::as_biguint().bits()). -/
def Uint256.bits (x : Uint256) : Nat := if x = 0 then 0 else Nat.log2 x + 1

/-- Big-endian byte decomposition: natToBytesBE n x is the n-byte big-endian
image of x mod 2^(8n), most significant byte first. -/
def natToBytesBE : Nat → Nat → List Nat
  | 0, _ => []
  | n + 1, x => (x / 2 ^ (8 * n)) % 256 :: natToBytesBE n x

/-- Embeds Uint256::from_bytes_be = BigUint::from_bytes_be
(src/types/uint256.rs lines 42-44). -/
def Uint256.from_bytes_be (bs : List Nat) : Uint256 :=
  bs.foldl (fun acc b => acc * 256 + b) 0

/-- Embeds Uint256::to_bytes_be (src/types/uint256.rs lines 52-58): the
minimal BigUint bytes are copied right-aligned into a 32-byte array; when the
value needs more than 32 bytes, start saturates to 0 and copy_from_slice
panics on the length mismatch, modelled as none. -/
def Uint256.to_bytes_be (x : Uint256) : Option (List Nat) :=
  if x < 2 ^ 256 then some (natToBytesBE 32 x) else none

/-- Address is 20 bytes (src/types/address.rs); embedded as its big-endian
numeric value. -/
abbrev Address := Nat

/-- Erases every binding of a key from an association list; the image of
HashMap::remove (a HashMap holds each key at most once). -/
def assocErase (k : Nat) (m : List (Nat × Nat)) : List (Nat × Nat) :=
  m.filter (fun p => p.fst != k)

/-- Image of HashMap::insert: the binding replaces any existing one. -/
def assocInsert (k v : Nat) (m : List (Nat × Nat)) : List (Nat × Nat) :=
  (k, v) :: assocErase k m

/-- Account record (src/storage/mod.rs lines 17-29). -/
structure Account where
  balance : Uint256
  nonce : Uint256
  code : List Nat
  storage : List (Uint256 × Uint256)
  deleted : Bool
deriving DecidableEq

/-- Embeds Account::new (src/storage/mod.rs lines 32-41). -/
def Account.new : Account :=
  { balance := 0, nonce := 0, code := [], storage := [], deleted := false }

/-- Embeds Account::get_storage: a missing key reads as zero
(src/storage/mod.rs lines 70-72). -/
def Account.get_storage (acc : Account) (key : Uint256) : Uint256 :=
  (acc.storage.lookup key).getD 0

/-- Embeds Account::set_storage: a zero value removes the entry, any other
value inserts it (src/storage/mod.rs lines 75-81). -/
def Account.set_storage (acc : Account) (key value : Uint256) : Account :=
  if value = 0 then { acc with storage := assocErase key acc.storage }
  else { acc with storage := assocInsert key value acc.storage }

/-- World state: address to account map (src/storage/mod.rs lines 122-125). -/
structure Storage where
  accounts : List (Address × Account)
deriving DecidableEq

/-- Embeds Storage::new (src/storage/mod.rs lines 129-133). -/
def Storage.new : Storage := { accounts := [] }

/-- Erases every binding of an address, as for assocErase. -/
def accountsErase (a : Address) (m : List (Address × Account)) :
    List (Address × Account) :=
  m.filter (fun p => p.fst != a)

/-- Embeds Storage::get_account (src/storage/mod.rs lines 141-143). -/
def Storage.get_account (s : Storage) (a : Address) : Option Account :=
  s.accounts.lookup a

/-- Embeds Storage::get_or_create_account followed by writing the account
back: the entry API mutates in place, modelled by erase-then-cons. -/
def Storage.update_account (s : Storage) (a : Address) (f : Account → Account) :
    Storage :=
  { accounts := (a, f ((s.accounts.lookup a).getD Account.new)) ::
      accountsErase a s.accounts }

/-- Embeds Storage::get_storage: absent accounts read as zero
(src/storage/mod.rs lines 224-229). -/
def Storage.get_storage (s : Storage) (a : Address) (key : Uint256) : Uint256 :=
  ((s.accounts.lookup a).map (fun acc => acc.get_storage key)).getD 0

/-- Embeds Storage::set_storage: auto-vivifies the account, then delegates to
Account::set_storage (src/storage/mod.rs lines 232-234). -/
def Storage.set_storage (s : Storage) (a : Address) (key value : Uint256) :
    Storage :=
  s.update_account a (fun acc => acc.set_storage key value)

/-- Embeds Storage::get_balance (src/storage/mod.rs lines 163-168). -/
def Storage.get_balance (s : Storage) (a : Address) : Uint256 :=
  ((s.accounts.lookup a).map (fun acc => acc.balance)).getD 0

/-- Membership of a storage slot: the account exists and its map holds the
key (the claim about canonicalization speaks of containment). -/
def Storage.contains_key (s : Storage) (a : Address) (key : Uint256) : Bool :=
  match s.accounts.lookup a with
  | some acc => (acc.storage.lookup key).isSome
  | none => false

/-- Error enums of the interpreter (src/opcodes/mod.rs lines 3-17,
src/stack/mod.rs lines 4-10, src/memory/mod.rs lines 4-10,
src/storage/mod.rs lines 6-14, src/gas/mod.rs lines 4-10). -/
inductive OpcodeError where
  | InvalidOpcode (opcode : Nat)
  | StackUnderflow
  | StackOverflow
  | InvalidJumpDestination
  | DivisionByZero
  | ModuloByZero
deriving DecidableEq

inductive StackError where
  | Overflow
  | Underflow
deriving DecidableEq

inductive MemoryError where
  | OutOfBounds (offset size : Nat)
  | ExpansionFailed (size : Nat)
deriving DecidableEq

inductive StorageError where
  | AccountNotFound (address : Address)
  | InsufficientBalance (required available : Uint256)
  | InvalidNonce (expected got : Uint256)
deriving DecidableEq

inductive GasError where
  | OutOfGas (required available : Nat)
  | GasLimitExceeded (limit : Nat)
deriving DecidableEq

/-- Embeds ExecutionError (src/executor/mod.rs lines 14-30). -/
inductive ExecutionError where
  | Stack (e : StackError)
  | Memory (e : MemoryError)
  | Storage (e : StorageError)
  | Gas (e : GasError)
  | Opcode (e : OpcodeError)
  | InvalidInstruction (msg : String)
  | Halted (reason : String)
deriving DecidableEq

/-- Embeds the Opcode enum (src/opcodes/mod.rs lines 21-185). -/
inductive Opcode where
  | Stop | Add | Mul | Sub | Div | Sdiv | Mod | Smod | Addmod | Mulmod
  | Exp | Signextend
  | Lt | Gt | Slt | Sgt | Eq | Iszero | And | Or | Xor | Not | Byte
  | Shl | Shr | Sar
  | Sha3
  | Address | Balance | Origin | Caller | Callvalue | Calldataload
  | Calldatasize | Calldatacopy | Codesize | Codecopy | Gasprice
  | Extcodesize | Extcodecopy | Returndatasize | Returndatacopy | Extcodehash
  | Blockhash | Coinbase | Timestamp | Number | Difficulty | Gaslimit
  | Chainid | Selfbalance
  | Pop | Mload | Mstore | Mstore8 | Sload | Sstore | Msize
  | Push1 | Push2 | Push3 | Push4 | Push5 | Push6 | Push7 | Push8
  | Push9 | Push10 | Push11 | Push12 | Push13 | Push14 | Push15 | Push16
  | Push17 | Push18 | Push19 | Push20 | Push21 | Push22 | Push23 | Push24
  | Push25 | Push26 | Push27 | Push28 | Push29 | Push30 | Push31 | Push32
  | Dup1 | Dup2 | Dup3 | Dup4 | Dup5 | Dup6 | Dup7 | Dup8
  | Dup9 | Dup10 | Dup11 | Dup12 | Dup13 | Dup14 | Dup15 | Dup16
  | Swap1 | Swap2 | Swap3 | Swap4 | Swap5 | Swap6 | Swap7 | Swap8
  | Swap9 | Swap10 | Swap11 | Swap12 | Swap13 | Swap14 | Swap15 | Swap16
  | Log0 | Log1 | Log2 | Log3 | Log4
  | Create | Call | Callcode | Return | Delegatecall | Create2
  | Staticcall | Revert | Selfdestruct
  | Jump | Jumpi | Pc | Jumpdest
deriving DecidableEq

/-- Embeds Opcode::to_byte, the discriminant values declared with each
variant (src/opcodes/mod.rs lines 21-185, 275-277). -/
def Opcode.to_byte : Opcode → Nat
  | .Stop => 0x00 | .Add => 0x01 | .Mul => 0x02 | .Sub => 0x03
  | .Div => 0x04 | .Sdiv => 0x05 | .Mod => 0x06 | .Smod => 0x07
  | .Addmod => 0x08 | .Mulmod => 0x09 | .Exp => 0x0a | .Signextend => 0x0b
  | .Lt => 0x10 | .Gt => 0x11 | .Slt => 0x12 | .Sgt => 0x13
  | .Eq => 0x14 | .Iszero => 0x15 | .And => 0x16 | .Or => 0x17
  | .Xor => 0x18 | .Not => 0x19 | .Byte => 0x1a | .Shl => 0x1b
  | .Shr => 0x1c | .Sar => 0x1d
  | .Sha3 => 0x20
  | .Address => 0x30 | .Balance => 0x31 | .Origin => 0x32 | .Caller => 0x33
  | .Callvalue => 0x34 | .Calldataload => 0x35 | .Calldatasize => 0x36
  | .Calldatacopy => 0x37 | .Codesize => 0x38 | .Codecopy => 0x39
  | .Gasprice => 0x3a | .Extcodesize => 0x3b | .Extcodecopy => 0x3c
  | .Returndatasize => 0x3d | .Returndatacopy => 0x3e | .Extcodehash => 0x3f
  | .Blockhash => 0x40 | .Coinbase => 0x41 | .Timestamp => 0x42
  | .Number => 0x43 | .Difficulty => 0x44 | .Gaslimit => 0x45
  | .Chainid => 0x46 | .Selfbalance => 0x47
  | .Pop => 0x50 | .Mload => 0x51 | .Mstore => 0x52 | .Mstore8 => 0x53
  | .Sload => 0x54 | .Sstore => 0x55 | .Msize => 0x59
  | .Push1 => 0x60 | .Push2 => 0x61 | .Push3 => 0x62 | .Push4 => 0x63
  | .Push5 => 0x64 | .Push6 => 0x65 | .Push7 => 0x66 | .Push8 => 0x67
  | .Push9 => 0x68 | .Push10 => 0x69 | .Push11 => 0x6a | .Push12 => 0x6b
  | .Push13 => 0x6c | .Push14 => 0x6d | .Push15 => 0x6e | .Push16 => 0x6f
  | .Push17 => 0x70 | .Push18 => 0x71 | .Push19 => 0x72 | .Push20 => 0x73
  | .Push21 => 0x74 | .Push22 => 0x75 | .Push23 => 0x76 | .Push24 => 0x77
  | .Push25 => 0x78 | .Push26 => 0x79 | .Push27 => 0x7a | .Push28 => 0x7b
  | .Push29 => 0x7c | .Push30 => 0x7d | .Push31 => 0x7e | .Push32 => 0x7f
  | .Dup1 => 0x80 | .Dup2 => 0x81 | .Dup3 => 0x82 | .Dup4 => 0x83
  | .Dup5 => 0x84 | .Dup6 => 0x85 | .Dup7 => 0x86 | .Dup8 => 0x87
  | .Dup9 => 0x88 | .Dup10 => 0x89 | .Dup11 => 0x8a | .Dup12 => 0x8b
  | .Dup13 => 0x8c | .Dup14 => 0x8d | .Dup15 => 0x8e | .Dup16 => 0x8f
  | .Swap1 => 0x90 | .Swap2 => 0x91 | .Swap3 => 0x92 | .Swap4 => 0x93
  | .Swap5 => 0x94 | .Swap6 => 0x95 | .Swap7 => 0x96 | .Swap8 => 0x97
  | .Swap9 => 0x98 | .Swap10 => 0x99 | .Swap11 => 0x9a | .Swap12 => 0x9b
  | .Swap13 => 0x9c | .Swap14 => 0x9d | .Swap15 => 0x9e | .Swap16 => 0x9f
  | .Log0 => 0xa0 | .Log1 => 0xa1 | .Log2 => 0xa2 | .Log3 => 0xa3
  | .Log4 => 0xa4
  | .Create => 0xf0 | .Call => 0xf1 | .Callcode => 0xf2 | .Return => 0xf3
  | .Delegatecall => 0xf4 | .Create2 => 0xf5 | .Staticcall => 0xfa
  | .Revert => 0xfd | .Selfdestruct => 0xff
  | .Jump => 0x56 | .Jumpi => 0x57 | .Pc => 0x58 | .Jumpdest => 0x5b

/-- Embeds Opcode::from_byte (src/opcodes/mod.rs lines 189-272).  The
wildcard ranges mirror the source: every byte of 0x60..=0x7f decodes to
Push1, 0x80..=0x8f to Dup1 and 0x90..=0x9f to Swap1, with the comment
"Will be handled specially". -/
def Opcode.from_byte (byte : Nat) : Except OpcodeError Opcode :=
  match byte with
  | 0x00 => .ok .Stop
  | 0x01 => .ok .Add
  | 0x02 => .ok .Mul
  | 0x03 => .ok .Sub
  | 0x04 => .ok .Div
  | 0x05 => .ok .Sdiv
  | 0x06 => .ok .Mod
  | 0x07 => .ok .Smod
  | 0x08 => .ok .Addmod
  | 0x09 => .ok .Mulmod
  | 0x0a => .ok .Exp
  | 0x0b => .ok .Signextend
  | 0x10 => .ok .Lt
  | 0x11 => .ok .Gt
  | 0x12 => .ok .Slt
  | 0x13 => .ok .Sgt
  | 0x14 => .ok .Eq
  | 0x15 => .ok .Iszero
  | 0x16 => .ok .And
  | 0x17 => .ok .Or
  | 0x18 => .ok .Xor
  | 0x19 => .ok .Not
  | 0x1a => .ok .Byte
  | 0x1b => .ok .Shl
  | 0x1c => .ok .Shr
  | 0x1d => .ok .Sar
  | 0x20 => .ok .Sha3
  | 0x30 => .ok .Address
  | 0x31 => .ok .Balance
  | 0x32 => .ok .Origin
  | 0x33 => .ok .Caller
  | 0x34 => .ok .Callvalue
  | 0x35 => .ok .Calldataload
  | 0x36 => .ok .Calldatasize
  | 0x37 => .ok .Calldatacopy
  | 0x38 => .ok .Codesize
  | 0x39 => .ok .Codecopy
  | 0x3a => .ok .Gasprice
  | 0x3b => .ok .Extcodesize
  | 0x3c => .ok .Extcodecopy
  | 0x3d => .ok .Returndatasize
  | 0x3e => .ok .Returndatacopy
  | 0x3f => .ok .Extcodehash
  | 0x40 => .ok .Blockhash
  | 0x41 => .ok .Coinbase
  | 0x42 => .ok .Timestamp
  | 0x43 => .ok .Number
  | 0x44 => .ok .Difficulty
  | 0x45 => .ok .Gaslimit
  | 0x46 => .ok .Chainid
  | 0x47 => .ok .Selfbalance
  | 0x50 => .ok .Pop
  | 0x51 => .ok .Mload
  | 0x52 => .ok .Mstore
  | 0x53 => .ok .Mstore8
  | 0x54 => .ok .Sload
  | 0x55 => .ok .Sstore
  | 0x56 => .ok .Jump
  | 0x57 => .ok .Jumpi
  | 0x58 => .ok .Pc
  | 0x59 => .ok .Msize
  | 0x5b => .ok .Jumpdest
  | 0xa0 => .ok .Log0
  | 0xa1 => .ok .Log1
  | 0xa2 => .ok .Log2
  | 0xa3 => .ok .Log3
  | 0xa4 => .ok .Log4
  | 0xf0 => .ok .Create
  | 0xf1 => .ok .Call
  | 0xf2 => .ok .Callcode
  | 0xf3 => .ok .Return
  | 0xf4 => .ok .Delegatecall
  | 0xf5 => .ok .Create2
  | 0xfa => .ok .Staticcall
  | 0xfd => .ok .Revert
  | 0xff => .ok .Selfdestruct
  | b =>
    if 0x60 ≤ b ∧ b ≤ 0x7f then .ok .Push1
    else if 0x80 ≤ b ∧ b ≤ 0x8f then .ok .Dup1
    else if 0x90 ≤ b ∧ b ≤ 0x9f then .ok .Swap1
    else .error (.InvalidOpcode b)

/-- Embeds Opcode::is_push (src/opcodes/mod.rs lines 322-325). -/
def Opcode.is_push (op : Opcode) : Bool :=
  0x60 ≤ op.to_byte ∧ op.to_byte ≤ 0x7f

/-- Embeds Opcode::is_dup (src/opcodes/mod.rs lines 328-331). -/
def Opcode.is_dup (op : Opcode) : Bool :=
  0x80 ≤ op.to_byte ∧ op.to_byte ≤ 0x8f

/-- Embeds Opcode::is_swap (src/opcodes/mod.rs lines 334-337). -/
def Opcode.is_swap (op : Opcode) : Bool :=
  0x90 ≤ op.to_byte ∧ op.to_byte ≤ 0x9f

/-- Embeds Opcode::dup_depth (src/opcodes/mod.rs lines 340-346). -/
def Opcode.dup_depth (op : Opcode) : Nat :=
  if op.is_dup then op.to_byte - 0x80 else 0

/-- Embeds Opcode::swap_depth (src/opcodes/mod.rs lines 349-355). -/
def Opcode.swap_depth (op : Opcode) : Nat :=
  if op.is_swap then op.to_byte - 0x90 else 0

/-- Embeds Opcode::get_push_size (src/opcodes/mod.rs lines 358-364). -/
def Opcode.get_push_size (op : Opcode) : Nat :=
  if op.is_push then op.to_byte - 0x60 + 1 else 0

/-- Embeds Opcode::pop_count (src/opcodes/mod.rs lines 290-319). -/
def Opcode.pop_count : Opcode → Nat
  | .Add | .Mul | .Sub | .Div | .Sdiv | .Mod | .Smod | .Addmod | .Mulmod
  | .Exp | .Signextend => 2
  | .Iszero | .Not => 1
  | .Lt | .Gt | .Slt | .Sgt | .Eq | .And | .Or | .Xor | .Byte | .Shl
  | .Shr | .Sar => 2
  | .Sha3 => 2
  | .Calldataload | .Sload | .Mload => 1
  | .Calldatacopy | .Codecopy | .Extcodecopy | .Returndatacopy => 3
  | .Mstore | .Mstore8 | .Sstore => 2
  | .Pop => 1
  | .Jump => 1
  | .Jumpi => 2
  | .Log0 => 2
  | .Log1 => 3
  | .Log2 => 4
  | .Log3 => 5
  | .Log4 => 6
  | .Create | .Create2 => 3
  | .Call | .Callcode | .Delegatecall | .Staticcall => 7
  | .Return | .Revert => 2
  | .Selfdestruct => 1
  | _ => 0

/-- Embeds GasCosts (src/gas/mod.rs lines 13-130). -/
structure GasCosts where
  add : Nat
  mul : Nat
  sub : Nat
  div : Nat
  sdiv : Nat
  mod_ : Nat
  smod : Nat
  addmod : Nat
  mulmod : Nat
  exp : Nat
  signextend : Nat
  lt : Nat
  gt : Nat
  slt : Nat
  sgt : Nat
  eq : Nat
  iszero : Nat
  and : Nat
  or : Nat
  xor : Nat
  not : Nat
  byte : Nat
  shl : Nat
  shr : Nat
  sar : Nat
  keccak256 : Nat
  keccak256_word : Nat
  address : Nat
  balance : Nat
  origin : Nat
  caller : Nat
  callvalue : Nat
  calldataload : Nat
  calldatasize : Nat
  calldatacopy : Nat
  codesize : Nat
  codecopy : Nat
  gasprice : Nat
  extcodesize : Nat
  extcodecopy : Nat
  returndatasize : Nat
  returndatacopy : Nat
  extcodehash : Nat
  blockhash : Nat
  coinbase : Nat
  timestamp : Nat
  number : Nat
  difficulty : Nat
  gaslimit : Nat
  chainid : Nat
  selfbalance : Nat
  sload : Nat
  sstore : Nat
  sstore_set : Nat
  sstore_reset : Nat
  sstore_clear : Nat
  mload : Nat
  mstore : Nat
  mstore8 : Nat
  msize : Nat
  push : Nat
  dup : Nat
  swap : Nat
  pop : Nat
  jump : Nat
  jumpi : Nat
  pc : Nat
  jumpdest : Nat
  log0 : Nat
  log1 : Nat
  log2 : Nat
  log3 : Nat
  log4 : Nat
  log_topic : Nat
  log_data : Nat
  create : Nat
  call : Nat
  callcode : Nat
  delegatecall : Nat
  staticcall : Nat
  return_ : Nat
  revert : Nat
  selfdestruct : Nat
  selfdestruct_refund : Nat
  base : Nat
  very_low : Nat
  low : Nat
  mid : Nat
  high : Nat
  warm_storage_read : Nat
  cold_storage_read : Nat
  access_list_storage_key : Nat
  access_list_address : Nat
deriving DecidableEq

/-- Embeds impl Default for GasCosts (src/gas/mod.rs lines 132-255). -/
def GasCosts.default : GasCosts :=
  { base := 2, very_low := 3, low := 5, mid := 8, high := 10
    add := 3, mul := 5, sub := 3, div := 5, sdiv := 5, mod_ := 5, smod := 5
    addmod := 8, mulmod := 8, exp := 10, signextend := 5
    lt := 3, gt := 3, slt := 3, sgt := 3, eq := 3, iszero := 3
    and := 3, or := 3, xor := 3, not := 3, byte := 3, shl := 3, shr := 3
    sar := 3
    keccak256 := 30, keccak256_word := 6
    address := 2, balance := 100, origin := 2, caller := 2, callvalue := 2
    calldataload := 3, calldatasize := 2, calldatacopy := 3
    codesize := 2, codecopy := 3, gasprice := 2
    extcodesize := 100, extcodecopy := 100
    returndatasize := 2, returndatacopy := 3, extcodehash := 100
    blockhash := 20, coinbase := 2, timestamp := 2, number := 2
    difficulty := 2, gaslimit := 2, chainid := 2, selfbalance := 5
    sload := 100, sstore := 100, sstore_set := 20000, sstore_reset := 5000
    sstore_clear := 15000
    mload := 3, mstore := 3, mstore8 := 3, msize := 2
    push := 3, dup := 3, swap := 3, pop := 2
    jump := 8, jumpi := 10, pc := 2, jumpdest := 1
    log0 := 375, log1 := 750, log2 := 1125, log3 := 1500, log4 := 1875
    log_topic := 375, log_data := 8
    create := 32000, call := 100, callcode := 100, delegatecall := 100
    staticcall := 100, return_ := 0, revert := 0
    selfdestruct := 5000, selfdestruct_refund := 24000
    warm_storage_read := 100, cold_storage_read := 2100
    access_list_storage_key := 1900, access_list_address := 2400 }

/-- Embeds GasMeter (src/gas/mod.rs lines 258-265). -/
structure GasMeter where
  available : Nat
  limit : Nat
  costs : GasCosts
deriving DecidableEq

/-- Embeds GasMeter::new (src/gas/mod.rs lines 269-275). -/
def GasMeter.new (gas_limit : Nat) : GasMeter :=
  { available := gas_limit, limit := gas_limit, costs := GasCosts.default }

/-- Embeds GasMeter::used (src/gas/mod.rs lines 297-299). -/
def GasMeter.used (gm : GasMeter) : Nat := gm.limit - gm.available

/-- Embeds GasMeter::consume (src/gas/mod.rs lines 302-311): a checked
decrement that reports OutOfGas and leaves the meter unchanged when the
amount exceeds the available gas. -/
def GasMeter.consume (gm : GasMeter) (amount : Nat) : Except GasError GasMeter :=
  if amount > gm.available then .error (.OutOfGas amount gm.available)
  else .ok { gm with available := gm.available - amount }

/-- Embeds GasMeter::memory_expansion_cost (src/gas/mod.rs lines 331-346). -/
def GasMeter.memory_expansion_cost (current_size new_size : Nat) : Nat :=
  if new_size ≤ current_size then 0
  else
    let current_words := (current_size + 31) / 32
    let new_words := (new_size + 31) / 32
    if new_words ≤ current_words then 0
    else
      (new_words - current_words) * 3 +
        new_words * new_words / 512 - current_words * current_words / 512

/-- EVM stack: Vec with the top at the end, embedded as a list with the top
at the head (src/stack/mod.rs); maximum size 1024. -/
abbrev Stack := List Uint256

/-- Embeds Stack::push (src/stack/mod.rs lines 36-42). -/
def Stack.push (s : Stack) (value : Uint256) : Except StackError Stack :=
  if s.length ≥ 1024 then .error .Overflow else .ok (value :: s)

/-- Embeds Stack::pop (src/stack/mod.rs lines 45-47). -/
def Stack.pop (s : Stack) : Except StackError (Uint256 × Stack) :=
  match s with
  | [] => .error .Underflow
  | v :: rest => .ok (v, rest)

/-- Embeds Stack::peek_at: element at depth d, 0 = top
(src/stack/mod.rs lines 55-60). -/
def Stack.peek_at (s : Stack) (depth : Nat) : Except StackError Uint256 :=
  match s.get? depth with
  | some v => .ok v
  | none => .error .Underflow

/-- Embeds Stack::dup (src/stack/mod.rs lines 78-85). -/
def Stack.dup (s : Stack) (depth : Nat) : Except StackError Stack :=
  match s.get? depth with
  | some v => s.push v
  | none => .error .Underflow

/-- Embeds Stack::swap: exchanges the top with the element at depth
(src/stack/mod.rs lines 88-95). -/
def Stack.swap (s : Stack) (depth : Nat) : Except StackError Stack :=
  if depth ≥ s.length then .error .Underflow
  else .ok ((s.set 0 (s.getD depth 0)).set depth (s.getD 0 0))

/-- EVM memory: lazily grown byte vector (src/memory/mod.rs). -/
abbrev Memory := List Nat

/-- Embeds Memory::ensure_size (src/memory/mod.rs lines 31-36). -/
def Memory.ensure_size (m : Memory) (size : Nat) : Memory :=
  if m.length < size then m ++ List.replicate (size - m.length) 0 else m

/-- Embeds Memory::read_bytes: exactly size bytes, zero past the current
length, without growing (src/memory/mod.rs lines 82-94). -/
def Memory.read_bytes (m : Memory) (offset size : Nat) : List Nat :=
  (List.range size).map (fun i => m.getD (offset + i) 0)

/-- Embeds Memory::read_word (src/memory/mod.rs lines 54-67). -/
def Memory.read_word (m : Memory) (offset : Nat) : Uint256 :=
  Uint256.from_bytes_be (m.read_bytes offset 32)

/-- Embeds Memory::write_bytes (src/memory/mod.rs lines 97-105). -/
def Memory.write_bytes (m : Memory) (offset : Nat) (data : List Nat) : Memory :=
  let m2 := m.ensure_size (offset + data.length)
  m2.take offset ++ data ++ m2.drop (offset + data.length)

/-- Embeds Memory::write_word (src/memory/mod.rs lines 70-79): grows first,
then serializes the value with Uint256::to_bytes_be, which panics (none) for
values of 2^256 or more. -/
def Memory.write_word (m : Memory) (offset : Nat) (value : Uint256) :
    Option Memory :=
  let m2 := m.ensure_size (offset + 32)
  (value.to_bytes_be).map (fun bytes => m2.write_bytes offset bytes)

/-- Embeds Memory::write_byte (src/memory/mod.rs lines 47-51). -/
def Memory.write_byte (m : Memory) (offset value : Nat) : Memory :=
  (m.ensure_size (offset + 1)).set offset value

/-- Embeds EventLog (src/events/mod.rs lines 7-14); a Hash topic is its
32-byte big-endian value. -/
structure EventLog where
  address : Address
  topics : List Nat
  data : List Nat
deriving DecidableEq

/-- Embeds BlockContext (src/block/mod.rs lines 7-24). -/
structure BlockContext where
  number : Uint256
  timestamp : Uint256
  difficulty : Uint256
  gas_limit : Uint256
  coinbase : Address
  chain_id : Uint256
  block_hash : Uint256
  base_fee : Uint256
deriving DecidableEq

/-- Embeds BlockContext::new (src/block/mod.rs lines 28-39). -/
def BlockContext.new : BlockContext :=
  { number := 1, timestamp := 1640995200, difficulty := 0x200000
    gas_limit := 30000000, coinbase := 0, chain_id := 1, block_hash := 0
    base_fee := 20000000000 }

/-- Embeds BlockContext::get_block_hash (src/block/mod.rs lines 66-81):
for a non-current block the "hash" is rebuilt from the 32-byte image of the
number, so it is the number itself; to_bytes_be panics (none) above 2^256. -/
def BlockContext.get_block_hash (ctx : BlockContext) (block_number : Uint256) :
    Option Uint256 :=
  if block_number = ctx.number then some ctx.block_hash
  else (block_number.to_bytes_be).map Uint256.from_bytes_be

/-- Embeds TransactionContext (src/block/mod.rs lines 99-110). -/
structure TransactionContext where
  gas_price : Uint256
  origin : Address
  gas_limit : Uint256
  tx_hash : Uint256
  nonce : Uint256
deriving DecidableEq

/-- Embeds TransactionContext::new (src/block/mod.rs lines 113-122). -/
def TransactionContext.new : TransactionContext :=
  { gas_price := 20000000000, origin := 0, gas_limit := 1000000
    tx_hash := 0, nonce := 0 }

/-- Embeds ExecutionContext (src/executor/mod.rs lines 33-66). -/
structure ExecutionContext where
  pc : Nat
  stack : Stack
  memory : Memory
  storage : Storage
  gas_meter : GasMeter
  event_logger : List EventLog
  block_context : BlockContext
  transaction_context : TransactionContext
  address : Address
  caller : Address
  call_value : Uint256
  input_data : List Nat
  code : List Nat
  return_data : List Nat
  should_continue : Bool
  success : Bool

/-- Embeds ExecutionContext::new (src/executor/mod.rs lines 70-96). -/
def ExecutionContext.new (address caller : Address) (call_value : Uint256)
    (input_data code : List Nat) (gas_limit : Nat) : ExecutionContext :=
  { pc := 0, stack := [], memory := [], storage := Storage.new
    gas_meter := GasMeter.new gas_limit, event_logger := []
    block_context := BlockContext.new
    transaction_context := TransactionContext.new
    address := address, caller := caller, call_value := call_value
    input_data := input_data, code := code, return_data := []
    should_continue := true, success := false }

/-- Embeds ExecutionContext::set_pc (src/executor/mod.rs lines 112-118):
only an out-of-range bound is checked, nothing about JUMPDEST. -/
def ExecutionContext.set_pc (c : ExecutionContext) (pc : Nat) :
    Except ExecutionError ExecutionContext :=
  if pc ≥ c.code.length then
    .error (.InvalidInstruction "Jump destination out of bounds")
  else .ok { c with pc := pc }

/-- Embeds ExecutionContext::halt (src/executor/mod.rs lines 121-127). -/
def ExecutionContext.halt (c : ExecutionContext) (success : Bool) :
    ExecutionContext :=
  { c with should_continue := false, success := success }

/-- Outcome of one interpreter action: Ok, a Rust Err, or a Rust panic
(BigUint underflow, to_bytes_be length mismatch, i128 overflow). -/
inductive EvmRes (α : Type) where
  | ok (a : α)
  | err (e : ExecutionError)
  | panicked (msg : String)

def EvmRes.bind {α β : Type} : EvmRes α → (α → EvmRes β) → EvmRes β
  | .ok a, f => f a
  | .err e, _ => .err e
  | .panicked m, _ => .panicked m

instance : Monad EvmRes where
  pure := EvmRes.ok
  bind := EvmRes.bind

/-- Lifts a stack result, as the From impl on ExecutionError does. -/
def liftStack {α : Type} : Except StackError α → EvmRes α
  | .ok a => .ok a
  | .error e => .err (.Stack e)

def liftGas {α : Type} : Except GasError α → EvmRes α
  | .ok a => .ok a
  | .error e => .err (.Gas e)

def liftOpcode {α : Type} : Except OpcodeError α → EvmRes α
  | .ok a => .ok a
  | .error e => .err (.Opcode e)

def liftExec {α : Type} : Except ExecutionError α → EvmRes α
  | .ok a => .ok a
  | .error e => .err e

/-- Converts an operation that panics in Rust (modelled Option) into EvmRes. -/
def orPanic {α : Type} (o : Option α) (msg : String) : EvmRes α :=
  match o with
  | some a => .ok a
  | none => .panicked msg

/-- Embeds Executor::validate_stack_requirements
(src/executor/mod.rs lines 186-198). -/
def validate_stack_requirements (c : ExecutionContext) (op : Opcode) :
    Except ExecutionError Unit :=
  if c.stack.length < op.pop_count then .error (.Stack .Underflow)
  else if op.is_push ∧ c.stack.length ≥ 1024 then .error (.Stack .Overflow)
  else .ok ()

/-- Embeds Executor::calculate_gas_cost (src/executor/mod.rs lines 201-337).
Note the Exp arm: it peeks depth 0 — which at decode time holds the BASE,
since the dispatch pops the base first — and charges the raw BigUint bit
count times 10.  The Sstore arm peeks key at depth 0 and value at depth 1
and reads the current slot; being a function of the context only, it cannot
mutate the stack. -/
def calculate_gas_cost (c : ExecutionContext) (op : Opcode) :
    Except ExecutionError Nat :=
  let costs := c.gas_meter.costs
  match op with
  | .Add => .ok costs.add
  | .Mul => .ok costs.mul
  | .Sub => .ok costs.sub
  | .Div => .ok costs.div
  | .Mod => .ok costs.mod_
  | .Sdiv => .ok costs.sdiv
  | .Smod => .ok costs.smod
  | .Addmod => .ok costs.addmod
  | .Mulmod => .ok costs.mulmod
  | .Signextend => .ok costs.signextend
  | .Exp =>
    match Stack.peek_at c.stack 0 with
    | .ok exponent => .ok (costs.exp + Uint256.bits exponent * 10)
    | .error _ => .ok costs.exp
  | .Lt => .ok costs.lt
  | .Gt => .ok costs.gt
  | .Slt => .ok costs.slt
  | .Sgt => .ok costs.sgt
  | .Eq => .ok costs.eq
  | .Iszero => .ok costs.iszero
  | .And => .ok costs.and
  | .Or => .ok costs.or
  | .Xor => .ok costs.xor
  | .Not => .ok costs.not
  | .Byte => .ok costs.byte
  | .Shl => .ok costs.shl
  | .Shr => .ok costs.shr
  | .Sha3 =>
    match Stack.peek_at c.stack 0 with
    | .ok size => .ok (costs.keccak256 + ((size.to_u64 + 31) / 32) * costs.keccak256_word)
    | .error _ => .ok costs.keccak256
  | .Pop => .ok costs.pop
  | .Mload => .ok costs.mload
  | .Mstore => .ok costs.mstore
  | .Mstore8 => .ok costs.mstore8
  | .Msize => .ok costs.msize
  | .Sload => .ok costs.sload
  | .Sstore =>
    match Stack.peek_at c.stack 0, Stack.peek_at c.stack 1 with
    | .ok key, .ok value =>
      let current_value := c.storage.get_storage c.address key
      if current_value = value then
        if current_value = 0 then .ok costs.sstore_clear
        else .ok costs.sstore_reset
      else
        if current_value = 0 then .ok costs.sstore_set
        else if value = 0 then .ok costs.sstore_clear
        else .ok costs.sstore_reset
    | _, _ => .ok costs.sstore
  | .Address => .ok costs.address
  | .Caller => .ok costs.caller
  | .Callvalue => .ok costs.callvalue
  | .Calldatasize => .ok costs.calldatasize
  | .Calldataload => .ok costs.calldataload
  | .Codesize => .ok costs.codesize
  | .Codecopy => .ok costs.codecopy
  | .Balance => .ok costs.balance
  | .Blockhash => .ok costs.blockhash
  | .Coinbase => .ok costs.coinbase
  | .Timestamp => .ok costs.timestamp
  | .Number => .ok costs.number
  | .Difficulty => .ok costs.difficulty
  | .Gaslimit => .ok costs.gaslimit
  | .Chainid => .ok costs.chainid
  | .Selfbalance => .ok costs.selfbalance
  | .Gasprice => .ok costs.gasprice
  | .Origin => .ok costs.origin
  | .Jump => .ok costs.jump
  | .Jumpi => .ok costs.jumpi
  | .Pc => .ok costs.pc
  | .Jumpdest => .ok costs.jumpdest
  | .Log0 => .ok costs.log0
  | .Log1 => .ok costs.log1
  | .Log2 => .ok costs.log2
  | .Log3 => .ok costs.log3
  | .Log4 => .ok costs.log4
  | .Return => .ok costs.return_
  | .Revert => .ok costs.revert
  | op =>
    if op.is_dup then .ok costs.dup
    else if op.is_swap then .ok costs.swap
    else .ok costs.base

/-- Embeds Executor::execute_push (src/executor/mod.rs lines 340-362): the
immediate width comes from get_push_size of the DECODED opcode, which is
always Push1 after from_byte collapsed the byte range. -/
def execute_push (c : ExecutionContext) (op : Opcode) :
    EvmRes ExecutionContext := do
  let gm ← liftGas (c.gas_meter.consume c.gas_meter.costs.push)
  let c := { c with gas_meter := gm }
  let push_size := op.get_push_size
  let c := { c with pc := c.pc + 1 }
  if c.pc + push_size > c.code.length then
    .err (.InvalidInstruction "Push data extends beyond code")
  else do
    let slice := (c.code.drop c.pc).take push_size
    let value := Uint256.from_bytes_be (List.replicate (32 - push_size) 0 ++ slice)
    let s ← liftStack (Stack.push c.stack value)
    pure { c with stack := s, pc := c.pc + push_size }

/-- Embeds Executor::uint256_to_signed (src/executor/mod.rs lines 1012-1019):
the low 16 bytes of the 32-byte image read as a two's-complement i128
(to_bytes_be panics above 2^256). -/
def uint256_to_signed (x : Uint256) : Option Int :=
  (x.to_bytes_be).map (fun bytes =>
    let low := Uint256.from_bytes_be (bytes.drop 16)
    if low < 2 ^ 127 then (low : Int) else (low : Int) - 2 ^ 128)

/-- Embeds Executor::signed_to_uint256 (src/executor/mod.rs lines 1022-1027):
the 16 big-endian bytes of the i128 left-padded with zeros. -/
def signed_to_uint256 (v : Int) : Uint256 := (Int.emod v (2 ^ 128)).toNat

/-- Rust i128 division; MIN / -1 overflows and panics (none). -/
def i128_div (a b : Int) : Option Int :=
  if a = -(2 ^ 127) ∧ b = -1 then none else some (Int.tdiv a b)

/-- Rust i128 remainder; MIN % -1 overflows and panics (none). -/
def i128_rem (a b : Int) : Option Int :=
  if a = -(2 ^ 127) ∧ b = -1 then none else some (Int.tmod a b)

/-- Square-and-multiply loop of the Exp arm (src/executor/mod.rs lines
417-429); the products are BigUint products, never reduced mod 2^256. -/
def exp_loop (result base_val exp : Nat) : Nat :=
  if exp = 0 then result
  else exp_loop (if exp % 2 = 1 then result * base_val else result)
    (base_val * base_val) (exp / 2)
termination_by exp
decreasing_by exact Nat.div_lt_self (Nat.pos_of_ne_zero (by assumption)) (by norm_num)

/-- Reads a topic as the Hash built from the 32-byte image of the popped
word (to_bytes_be panics at 2^256 and above). -/
def topic_hash (t : Uint256) : Option Nat :=
  (t.to_bytes_be).map Uint256.from_bytes_be

/-- Embeds Executor::execute_opcode (src/executor/mod.rs lines 365-1009).
The keccak argument abstracts the external sha3 crate digest (only the Sha3
arm applies it).  Points mirrored from the source: Sub is raw BigUint
subtraction and panics on underflow; Slt/Sgt reuse the unsigned BigUint
order; Jump/Jumpi only call set_pc, no JUMPDEST-set membership test exists;
Log1..Log4 pop their topics BEFORE offset and size, the last-popped topic
first in the entry. -/
def execute_opcode (keccak : List Nat → Nat) (c : ExecutionContext)
    (op : Opcode) : EvmRes ExecutionContext := do
  let gas_cost ← liftExec (calculate_gas_cost c op)
  let gm ← liftGas (c.gas_meter.consume gas_cost)
  let c := { c with gas_meter := gm, pc := c.pc + 1 }
  match op with
  | .Stop => pure (c.halt true)
  | .Add => do
    let (a, s) ← liftStack (Stack.pop c.stack)
    let (b, s) ← liftStack (Stack.pop s)
    let s ← liftStack (Stack.push s (Uint256.add a b))
    pure { c with stack := s }
  | .Mul => do
    let (a, s) ← liftStack (Stack.pop c.stack)
    let (b, s) ← liftStack (Stack.pop s)
    let s ← liftStack (Stack.push s (Uint256.mul a b))
    pure { c with stack := s }
  | .Sub => do
    let (a, s) ← liftStack (Stack.pop c.stack)
    let (b, s) ← liftStack (Stack.pop s)
    let r ← orPanic (Uint256.sub a b) "attempt to subtract with overflow"
    let s ← liftStack (Stack.push s r)
    pure { c with stack := s }
  | .Div => do
    let (a, s) ← liftStack (Stack.pop c.stack)
    let (b, s) ← liftStack (Stack.pop s)
    let r := if b = 0 then 0 else a / b
    let s ← liftStack (Stack.push s r)
    pure { c with stack := s }
  | .Mod => do
    let (a, s) ← liftStack (Stack.pop c.stack)
    let (b, s) ← liftStack (Stack.pop s)
    let r := if b = 0 then 0 else a % b
    let s ← liftStack (Stack.push s r)
    pure { c with stack := s }
  | .Exp => do
    let (base, s) ← liftStack (Stack.pop c.stack)
    let (exponent, s) ← liftStack (Stack.pop s)
    let r := if exponent = 0 then 1
      else if base = 0 then 0
      else exp_loop 1 base exponent
    let s ← liftStack (Stack.push s r)
    pure { c with stack := s }
  | .Sdiv => do
    let (a, s) ← liftStack (Stack.pop c.stack)
    let (b, s) ← liftStack (Stack.pop s)
    if b = 0 then do
      let s ← liftStack (Stack.push s 0)
      pure { c with stack := s }
    else do
      let a_signed ← orPanic (uint256_to_signed a) "to_bytes_be overflow"
      let b_signed ← orPanic (uint256_to_signed b) "to_bytes_be overflow"
      let q ← orPanic (i128_div a_signed b_signed) "attempt to divide with overflow"
      let s ← liftStack (Stack.push s (signed_to_uint256 q))
      pure { c with stack := s }
  | .Smod => do
    let (a, s) ← liftStack (Stack.pop c.stack)
    let (b, s) ← liftStack (Stack.pop s)
    if b = 0 then do
      let s ← liftStack (Stack.push s 0)
      pure { c with stack := s }
    else do
      let a_signed ← orPanic (uint256_to_signed a) "to_bytes_be overflow"
      let b_signed ← orPanic (uint256_to_signed b) "to_bytes_be overflow"
      let r ← orPanic (i128_rem a_signed b_signed) "attempt to compute remainder with overflow"
      let s ← liftStack (Stack.push s (signed_to_uint256 r))
      pure { c with stack := s }
  | .Addmod => do
    let (a, s) ← liftStack (Stack.pop c.stack)
    let (b, s) ← liftStack (Stack.pop s)
    let (m, s) ← liftStack (Stack.pop s)
    let r := if m = 0 then 0 else (a + b) % m
    let s ← liftStack (Stack.push s r)
    pure { c with stack := s }
  | .Mulmod => do
    let (a, s) ← liftStack (Stack.pop c.stack)
    let (b, s) ← liftStack (Stack.pop s)
    let (m, s) ← liftStack (Stack.pop s)
    let r := if m = 0 then 0 else (a * b) % m
    let s ← liftStack (Stack.push s r)
    pure { c with stack := s }
  | .Signextend => do
    let (b, s) ← liftStack (Stack.pop c.stack)
    let (x, s) ← liftStack (Stack.pop s)
    if b ≥ 31 then do
      let s ← liftStack (Stack.push s x)
      pure { c with stack := s }
    else do
      let x_bytes ← orPanic (x.to_bytes_be) "to_bytes_be overflow"
      let b_usize := b.to_u32
      let sign_bit := Nat.testBit (x_bytes.getD (31 - b_usize) 0) 7
      let result_bytes := (List.range 32).map (fun i =>
        if i < 31 - b_usize then (if sign_bit then 0xFF else 0)
        else x_bytes.getD i 0)
      let s ← liftStack (Stack.push s (Uint256.from_bytes_be result_bytes))
      pure { c with stack := s }
  | .Lt => do
    let (a, s) ← liftStack (Stack.pop c.stack)
    let (b, s) ← liftStack (Stack.pop s)
    let s ← liftStack (Stack.push s (if a < b then 1 else 0))
    pure { c with stack := s }
  | .Gt => do
    let (a, s) ← liftStack (Stack.pop c.stack)
    let (b, s) ← liftStack (Stack.pop s)
    let s ← liftStack (Stack.push s (if a > b then 1 else 0))
    pure { c with stack := s }
  | .Slt => do
    let (a, s) ← liftStack (Stack.pop c.stack)
    let (b, s) ← liftStack (Stack.pop s)
    let s ← liftStack (Stack.push s (if a < b then 1 else 0))
    pure { c with stack := s }
  | .Sgt => do
    let (a, s) ← liftStack (Stack.pop c.stack)
    let (b, s) ← liftStack (Stack.pop s)
    let s ← liftStack (Stack.push s (if a > b then 1 else 0))
    pure { c with stack := s }
  | .Eq => do
    let (a, s) ← liftStack (Stack.pop c.stack)
    let (b, s) ← liftStack (Stack.pop s)
    let s ← liftStack (Stack.push s (if a = b then 1 else 0))
    pure { c with stack := s }
  | .Iszero => do
    let (a, s) ← liftStack (Stack.pop c.stack)
    let s ← liftStack (Stack.push s (if a = 0 then 1 else 0))
    pure { c with stack := s }
  | .And => do
    let (a, s) ← liftStack (Stack.pop c.stack)
    let (b, s) ← liftStack (Stack.pop s)
    let s ← liftStack (Stack.push s (Nat.land a b))
    pure { c with stack := s }
  | .Or => do
    let (a, s) ← liftStack (Stack.pop c.stack)
    let (b, s) ← liftStack (Stack.pop s)
    let s ← liftStack (Stack.push s (Nat.lor a b))
    pure { c with stack := s }
  | .Xor => do
    let (a, s) ← liftStack (Stack.pop c.stack)
    let (b, s) ← liftStack (Stack.pop s)
    let s ← liftStack (Stack.push s (Nat.xor a b))
    pure { c with stack := s }
  | .Byte => do
    let (i, s) ← liftStack (Stack.pop c.stack)
    let (x, s) ← liftStack (Stack.pop s)
    if i ≥ 32 then do
      let s ← liftStack (Stack.push s 0)
      pure { c with stack := s }
    else do
      let bytes ← orPanic (x.to_bytes_be) "to_bytes_be overflow"
      let s ← liftStack (Stack.push s (bytes.getD i.to_u32 0))
      pure { c with stack := s }
  | .Shl => do
    let (shift, s) ← liftStack (Stack.pop c.stack)
    let (value, s) ← liftStack (Stack.pop s)
    let r := if shift ≥ 256 then 0 else Nat.shiftLeft value shift.to_u32
    let s ← liftStack (Stack.push s r)
    pure { c with stack := s }
  | .Shr => do
    let (shift, s) ← liftStack (Stack.pop c.stack)
    let (value, s) ← liftStack (Stack.pop s)
    let r := if shift ≥ 256 then 0 else Nat.shiftRight value shift.to_u32
    let s ← liftStack (Stack.push s r)
    pure { c with stack := s }
  | .Not => do
    let (a, s) ← liftStack (Stack.pop c.stack)
    let max_uint256 := Uint256.from_bytes_be (List.replicate 32 0xFF)
    let s ← liftStack (Stack.push s (Nat.xor a max_uint256))
    pure { c with stack := s }
  | .Sha3 => do
    let (offset, s) ← liftStack (Stack.pop c.stack)
    let (size, s) ← liftStack (Stack.pop s)
    let offset_usize := offset.to_u64
    let size_usize := size.to_u64
    let expansion := GasMeter.memory_expansion_cost c.memory.length
      (offset_usize + size_usize)
    let gm ← liftGas (c.gas_meter.consume expansion)
    let data := Memory.read_bytes c.memory offset_usize size_usize
    let s ← liftStack (Stack.push s (keccak data))
    pure { c with stack := s, gas_meter := gm }
  | .Pop => do
    let (_, s) ← liftStack (Stack.pop c.stack)
    pure { c with stack := s }
  | .Mload => do
    let (offset, s) ← liftStack (Stack.pop c.stack)
    let offset_usize := offset.to_u64
    let expansion := GasMeter.memory_expansion_cost c.memory.length
      (offset_usize + 32)
    let gm ← liftGas (c.gas_meter.consume expansion)
    let value := Memory.read_word c.memory offset_usize
    let s ← liftStack (Stack.push s value)
    pure { c with stack := s, gas_meter := gm }
  | .Mstore => do
    let (offset, s) ← liftStack (Stack.pop c.stack)
    let (value, s) ← liftStack (Stack.pop s)
    let offset_usize := offset.to_u64
    let expansion := GasMeter.memory_expansion_cost c.memory.length
      (offset_usize + 32)
    let gm ← liftGas (c.gas_meter.consume expansion)
    let m ← orPanic (Memory.write_word c.memory offset_usize value)
      "to_bytes_be overflow"
    pure { c with stack := s, memory := m, gas_meter := gm }
  | .Mstore8 => do
    let (offset, s) ← liftStack (Stack.pop c.stack)
    let (value, s) ← liftStack (Stack.pop s)
    let offset_usize := offset.to_u64
    let expansion := GasMeter.memory_expansion_cost c.memory.length
      (offset_usize + 1)
    let gm ← liftGas (c.gas_meter.consume expansion)
    let m := Memory.write_byte c.memory offset_usize value.to_u8
    pure { c with stack := s, memory := m, gas_meter := gm }
  | .Msize => do
    let s ← liftStack (Stack.push c.stack (c.memory.length % 2 ^ 32))
    pure { c with stack := s }
  | .Sload => do
    let (key, s) ← liftStack (Stack.pop c.stack)
    let value := c.storage.get_storage c.address key
    let s ← liftStack (Stack.push s value)
    pure { c with stack := s }
  | .Sstore => do
    let (key, s) ← liftStack (Stack.pop c.stack)
    let (value, s) ← liftStack (Stack.pop s)
    pure { c with stack := s
                  storage := c.storage.set_storage c.address key value }
  | .Address => do
    let s ← liftStack (Stack.push c.stack c.address)
    pure { c with stack := s }
  | .Caller => do
    let s ← liftStack (Stack.push c.stack c.caller)
    pure { c with stack := s }
  | .Callvalue => do
    let s ← liftStack (Stack.push c.stack c.call_value)
    pure { c with stack := s }
  | .Calldatasize => do
    let s ← liftStack (Stack.push c.stack (c.input_data.length % 2 ^ 32))
    pure { c with stack := s }
  | .Calldataload => do
    let (offset, s) ← liftStack (Stack.pop c.stack)
    let offset_usize := offset.to_u64
    if offset_usize ≥ c.input_data.length then do
      let s ← liftStack (Stack.push s 0)
      pure { c with stack := s }
    else do
      let copy_len := min (c.input_data.length - offset_usize) 32
      let bytes := (c.input_data.drop offset_usize).take copy_len ++
        List.replicate (32 - copy_len) 0
      let s ← liftStack (Stack.push s (Uint256.from_bytes_be bytes))
      pure { c with stack := s }
  | .Codesize => do
    let s ← liftStack (Stack.push c.stack (c.code.length % 2 ^ 32))
    pure { c with stack := s }
  | .Codecopy => do
    let (dest_offset, s) ← liftStack (Stack.pop c.stack)
    let (offset, s) ← liftStack (Stack.pop s)
    let (size, s) ← liftStack (Stack.pop s)
    let dest_usize := dest_offset.to_u64
    let offset_usize := offset.to_u64
    let size_usize := size.to_u64
    let expansion := GasMeter.memory_expansion_cost c.memory.length
      (dest_usize + size_usize)
    let gm ← liftGas (c.gas_meter.consume expansion)
    if offset_usize < c.code.length then
      let data := (c.code.drop offset_usize).take
        (min (offset_usize + size_usize) c.code.length - offset_usize)
      pure { c with stack := s
                    gas_meter := gm
                    memory := Memory.write_bytes c.memory dest_usize data }
    else
      pure { c with stack := s, gas_meter := gm }
  | .Balance => do
    let (address_word, s) ← liftStack (Stack.pop c.stack)
    let bytes ← orPanic (address_word.to_bytes_be) "to_bytes_be overflow"
    let addr := Uint256.from_bytes_be (bytes.drop 12)
    let s ← liftStack (Stack.push s (c.storage.get_balance addr))
    pure { c with stack := s }
  | .Blockhash => do
    let (block_number, s) ← liftStack (Stack.pop c.stack)
    let h ← orPanic (c.block_context.get_block_hash block_number)
      "to_bytes_be overflow"
    let s ← liftStack (Stack.push s h)
    pure { c with stack := s }
  | .Coinbase => do
    let s ← liftStack (Stack.push c.stack c.block_context.coinbase)
    pure { c with stack := s }
  | .Timestamp => do
    let s ← liftStack (Stack.push c.stack c.block_context.timestamp)
    pure { c with stack := s }
  | .Number => do
    let s ← liftStack (Stack.push c.stack c.block_context.number)
    pure { c with stack := s }
  | .Difficulty => do
    let s ← liftStack (Stack.push c.stack c.block_context.difficulty)
    pure { c with stack := s }
  | .Gaslimit => do
    let s ← liftStack (Stack.push c.stack c.block_context.gas_limit)
    pure { c with stack := s }
  | .Chainid => do
    let s ← liftStack (Stack.push c.stack c.block_context.chain_id)
    pure { c with stack := s }
  | .Selfbalance => do
    let s ← liftStack (Stack.push c.stack (c.storage.get_balance c.address))
    pure { c with stack := s }
  | .Gasprice => do
    let s ← liftStack (Stack.push c.stack c.transaction_context.gas_price)
    pure { c with stack := s }
  | .Origin => do
    let s ← liftStack (Stack.push c.stack c.transaction_context.origin)
    pure { c with stack := s }
  | .Jump => do
    let (dest, s) ← liftStack (Stack.pop c.stack)
    let c2 ← liftExec (ExecutionContext.set_pc { c with stack := s } dest.to_u64)
    pure c2
  | .Jumpi => do
    let (dest, s) ← liftStack (Stack.pop c.stack)
    let (condition, s) ← liftStack (Stack.pop s)
    if condition ≠ 0 then do
      let c2 ← liftExec (ExecutionContext.set_pc { c with stack := s } dest.to_u64)
      pure c2
    else
      pure { c with stack := s }
  | .Pc => do
    let s ← liftStack (Stack.push c.stack (c.pc % 2 ^ 32))
    pure { c with stack := s }
  | .Jumpdest => pure c
  | .Log0 => do
    let (offset, s) ← liftStack (Stack.pop c.stack)
    let (size, s) ← liftStack (Stack.pop s)
    let offset_usize := offset.to_u64
    let size_usize := size.to_u64
    let expansion := GasMeter.memory_expansion_cost c.memory.length
      (offset_usize + size_usize)
    let gm ← liftGas (c.gas_meter.consume expansion)
    let data := Memory.read_bytes c.memory offset_usize size_usize
    pure { c with stack := s
                  gas_meter := gm
                  event_logger := c.event_logger ++
        [{ address := c.address, topics := [], data := data }] }
  | .Log1 => do
    let (topic0, s) ← liftStack (Stack.pop c.stack)
    let (offset, s) ← liftStack (Stack.pop s)
    let (size, s) ← liftStack (Stack.pop s)
    let offset_usize := offset.to_u64
    let size_usize := size.to_u64
    let expansion := GasMeter.memory_expansion_cost c.memory.length
      (offset_usize + size_usize)
    let gm ← liftGas (c.gas_meter.consume expansion)
    let data := Memory.read_bytes c.memory offset_usize size_usize
    let t0 ← orPanic (topic_hash topic0) "to_bytes_be overflow"
    pure { c with stack := s
                  gas_meter := gm
                  event_logger := c.event_logger ++
        [{ address := c.address, topics := [t0], data := data }] }
  | .Log2 => do
    let (topic1, s) ← liftStack (Stack.pop c.stack)
    let (topic0, s) ← liftStack (Stack.pop s)
    let (offset, s) ← liftStack (Stack.pop s)
    let (size, s) ← liftStack (Stack.pop s)
    let offset_usize := offset.to_u64
    let size_usize := size.to_u64
    let expansion := GasMeter.memory_expansion_cost c.memory.length
      (offset_usize + size_usize)
    let gm ← liftGas (c.gas_meter.consume expansion)
    let data := Memory.read_bytes c.memory offset_usize size_usize
    let t0 ← orPanic (topic_hash topic0) "to_bytes_be overflow"
    let t1 ← orPanic (topic_hash topic1) "to_bytes_be overflow"
    pure { c with stack := s
                  gas_meter := gm
                  event_logger := c.event_logger ++
        [{ address := c.address, topics := [t0, t1], data := data }] }
  | .Log3 => do
    let (topic2, s) ← liftStack (Stack.pop c.stack)
    let (topic1, s) ← liftStack (Stack.pop s)
    let (topic0, s) ← liftStack (Stack.pop s)
    let (offset, s) ← liftStack (Stack.pop s)
    let (size, s) ← liftStack (Stack.pop s)
    let offset_usize := offset.to_u64
    let size_usize := size.to_u64
    let expansion := GasMeter.memory_expansion_cost c.memory.length
      (offset_usize + size_usize)
    let gm ← liftGas (c.gas_meter.consume expansion)
    let data := Memory.read_bytes c.memory offset_usize size_usize
    let t0 ← orPanic (topic_hash topic0) "to_bytes_be overflow"
    let t1 ← orPanic (topic_hash topic1) "to_bytes_be overflow"
    let t2 ← orPanic (topic_hash topic2) "to_bytes_be overflow"
    pure { c with stack := s
                  gas_meter := gm
                  event_logger := c.event_logger ++
        [{ address := c.address, topics := [t0, t1, t2], data := data }] }
  | .Log4 => do
    let (topic3, s) ← liftStack (Stack.pop c.stack)
    let (topic2, s) ← liftStack (Stack.pop s)
    let (topic1, s) ← liftStack (Stack.pop s)
    let (topic0, s) ← liftStack (Stack.pop s)
    let (offset, s) ← liftStack (Stack.pop s)
    let (size, s) ← liftStack (Stack.pop s)
    let offset_usize := offset.to_u64
    let size_usize := size.to_u64
    let expansion := GasMeter.memory_expansion_cost c.memory.length
      (offset_usize + size_usize)
    let gm ← liftGas (c.gas_meter.consume expansion)
    let data := Memory.read_bytes c.memory offset_usize size_usize
    let t0 ← orPanic (topic_hash topic0) "to_bytes_be overflow"
    let t1 ← orPanic (topic_hash topic1) "to_bytes_be overflow"
    let t2 ← orPanic (topic_hash topic2) "to_bytes_be overflow"
    let t3 ← orPanic (topic_hash topic3) "to_bytes_be overflow"
    pure { c with stack := s
                  gas_meter := gm
                  event_logger := c.event_logger ++
        [{ address := c.address, topics := [t0, t1, t2, t3], data := data }] }
  | .Return => do
    let (offset, s) ← liftStack (Stack.pop c.stack)
    let (size, s) ← liftStack (Stack.pop s)
    let data := Memory.read_bytes c.memory offset.to_u64 size.to_u64
    pure (({ c with stack := s, return_data := data }).halt true)
  | .Revert => do
    let (offset, s) ← liftStack (Stack.pop c.stack)
    let (size, s) ← liftStack (Stack.pop s)
    let data := Memory.read_bytes c.memory offset.to_u64 size.to_u64
    pure (({ c with stack := s, return_data := data }).halt false)
  | op =>
    if op.is_dup then do
      let s ← liftStack (Stack.dup c.stack op.dup_depth)
      pure { c with stack := s }
    else if op.is_swap then do
      let s ← liftStack (Stack.swap c.stack op.swap_depth)
      pure { c with stack := s }
    else
      .err (.InvalidInstruction "Unimplemented opcode")

/-- Embeds Executor::step (src/executor/mod.rs lines 163-183). -/
def Executor.step (keccak : List Nat → Nat) (c : ExecutionContext) :
    EvmRes ExecutionContext :=
  if c.pc ≥ c.code.length then
    .err (.InvalidInstruction "Program counter out of bounds")
  else
    match Opcode.from_byte (c.code.getD c.pc 0) with
    | .error e => .err (.Opcode e)
    | .ok op =>
      match validate_stack_requirements c op with
      | .error e => .err e
      | .ok _ =>
        if op.is_push then execute_push c op else execute_opcode keccak c op

/-- Embeds ExecutionResult (src/executor/mod.rs lines 1031-1043). -/
structure ExecutionResult where
  success : Bool
  return_data : List Nat
  gas_used : Nat
  gas_remaining : Nat
  logs : List EventLog
deriving DecidableEq

/-- Builds the result struct as Executor::execute does on its Ok path
(src/executor/mod.rs lines 153-159). -/
def mk_result (c : ExecutionContext) : ExecutionResult :=
  { success := c.success, return_data := c.return_data
    gas_used := c.gas_meter.used, gas_remaining := c.gas_meter.available
    logs := c.event_logger }

/-- Result of a whole run: the Ok result struct, a propagated Err, a panic,
or exhaustion of the step budget of the embedding. -/
inductive RunOutcome where
  | ok (r : ExecutionResult)
  | err (e : ExecutionError)
  | panicked (msg : String)
  | fuel_exhausted
deriving DecidableEq

/-- Embeds the loop of Executor::execute (src/executor/mod.rs lines 143-160):
while should_continue and pc is in range, step, propagating Err with the
question-mark operator; afterwards falling off the end of the code marks
success.  The fuel bounds the number of iterations of the embedding; every
run below is given ample fuel. -/
def execute_loop (keccak : List Nat → Nat) :
    Nat → ExecutionContext → RunOutcome
  | 0, _ => .fuel_exhausted
  | fuel + 1, c =>
    if c.should_continue && decide (c.pc < c.code.length) then
      match Executor.step keccak c with
      | .ok c2 => execute_loop keccak fuel c2
      | .err e => .err e
      | .panicked m => .panicked m
    else
      let c2 := if c.should_continue && decide (c.code.length ≤ c.pc)
        then { c with success := true } else c
      .ok (mk_result c2)

/-- Runs Executor::execute on a fresh context built as ExecutionContext::new
does, with the given callee address, code and gas limit. -/
def execute_code (keccak : List Nat → Nat) (address : Address)
    (code : List Nat) (gas_limit fuel : Nat) : RunOutcome :=
  execute_loop keccak fuel (ExecutionContext.new address 0 0 [] code gas_limit)

/-- Iteration body of the first JUMPDEST pass; the fuel only bounds the
loop, which advances the index by at least one byte per iteration. -/
def collect_jumpdests_go (code : List Nat) : Nat → Nat → List Nat
  | 0, _ => []
  | fuel + 1, i =>
    if i < code.length then
      match Opcode.from_byte (code.getD i 0) with
      | .ok op =>
        let stride := if op.is_push then op.get_push_size + 1 else 1
        let rest := collect_jumpdests_go code fuel (i + stride)
        if op = .Jumpdest then i :: rest else rest
      | .error _ => collect_jumpdests_go code fuel (i + 1)
    else []

/-- Embeds the first pass of Validator::validate_jump_destinations
(src/validation/mod.rs lines 137-157): collect the offsets of JUMPDEST
bytes, skipping over PUSH immediates as reported by get_push_size. -/
def collect_jumpdests (code : List Nat) : List Nat :=
  collect_jumpdests_go code (code.length + 1) 0

/-- Projection used to state facts about a single step: the pc and stack of
an Ok context. -/
def step_view (r : EvmRes ExecutionContext) : Option (Nat × Stack) :=
  match r with
  | .ok c => some (c.pc, c.stack)
  | _ => none

/-- Projection used to state facts about a dispatch: the stack of an Ok
context. -/
def stack_of (r : EvmRes ExecutionContext) : Option Stack :=
  match r with
  | .ok c => some c.stack
  | _ => none

/-- Stated from the spec for comparison (section 4.6): the EXP dynamic gas
charge is 10 + 10 times the byte length of the exponent (bit length rounded
up to bytes). -/
def spec_exp_gas_cost (exponent : Uint256) : Nat :=
  10 + 10 * ((Uint256.bits exponent + 7) / 8)

/-- Stated from the spec for comparison (section 3, signed view): the
two's-complement reading of a U256 over 256 bits. -/
def spec_signed_view (x : Uint256) : Int :=
  if x < 2 ^ 255 then (x : Int) else (x : Int) - 2 ^ 256

/-- Context in which the EXP gas charge of claim C5 is evaluated: the stack
at decode time holds the base 2 on top (depth 0) and the exponent 255 at
depth 1, exactly the layout the dispatch pops (base first). -/
def exp_gas_context : ExecutionContext :=
  { ExecutionContext.new 7 0 0 [] [0x0a] 1000 with stack := [2, 255] }

/-- Context for the SLT evaluation of claim C6: operand a = 2^255 (the
most negative two's-complement value) on top, b = 0 below. -/
def slt_context : ExecutionContext :=
  { ExecutionContext.new 7 0 0 [] [0x12] 1000 with stack := [2 ^ 255, 0] }

/-- Context for the SGT evaluation of claim C6: a = 0 on top, b = 2^255. -/
def sgt_context : ExecutionContext :=
  { ExecutionContext.new 7 0 0 [] [0x13] 1000 with stack := [0, 2 ^ 255] }

/-- Context for the SSTORE gas witness: key 1 on top, value 2 below, empty
storage. -/
def sstore_witness_context : ExecutionContext :=
  { ExecutionContext.new 7 0 0 [] [0x55] 100000 with stack := [1, 2] }

theorem natToBytesBE_length (n x : Nat) : (natToBytesBE n x).length = n := by
  induction n generalizing x with
  | zero => rfl
  | succ n ih => simp [natToBytesBE, ih]

theorem foldl_natToBytesBE (n x acc : Nat) :
    (natToBytesBE n x).foldl (fun acc b => acc * 256 + b) acc =
      acc * 2 ^ (8 * n) + x % 2 ^ (8 * n) := by
  induction n generalizing acc with
  | zero => simp [natToBytesBE, Nat.mod_one]
  | succ n ih =>
    rw [natToBytesBE, List.foldl_cons, ih]
    have h256 : (2 : Nat) ^ (8 * (n + 1)) = 2 ^ (8 * n) * 256 := by
      rw [Nat.mul_succ, pow_add]; norm_num
    have hmod : x % 2 ^ (8 * (n + 1)) =
        x % 2 ^ (8 * n) + 2 ^ (8 * n) * (x / 2 ^ (8 * n) % 256) := by
      rw [h256, Nat.mod_mul]
    rw [hmod, h256]
    ring

theorem from_bytes_be_natToBytesBE (n x : Nat) :
    Uint256.from_bytes_be (natToBytesBE n x) = x % 2 ^ (8 * n) := by
  have := foldl_natToBytesBE n x 0
  simpa [Uint256.from_bytes_be] using this

/-- Claim C1: every PUSH_n opcode (bytes 0x60..0x7F, width n = byte − 0x5F)
reads the next n code bytes as a big-endian U256, pushes it, and advances pc
by 1 + n, so PUSH2..PUSH32 consume 2..32 immediate bytes.  The code refutes
this: from_byte collapses the whole range to Push1 (here byte 0x61, PUSH2),
get_push_size of the decoded opcode is therefore 1, so the step on
PUSH2 0x0102 pushes 0x01 and leaves pc at 2; the full run then decodes the
leftover immediate byte 0x02 as MUL and fails with a stack underflow. -/
theorem claim_C1_push_immediate_width (keccak : List Nat → Nat) :
    Opcode.from_byte 0x61 = .ok .Push1 ∧
    Opcode.get_push_size .Push1 = 1 ∧
    step_view (Executor.step keccak
      (ExecutionContext.new 7 0 0 [] [0x61, 0x01, 0x02, 0x00] 100)) =
      some (2, [1]) ∧
    execute_code keccak 7 [0x61, 0x01, 0x02, 0x00] 100 50 =
      .err (.Stack .Underflow) :=
  ⟨rfl, rfl, rfl, rfl⟩

/-- Claim C2: the executor traps InvalidJumpDestination iff the JUMP target
is outside the valid-JUMPDEST set.  The code refutes this: for the program
PUSH1 3, JUMP, STOP the JUMPDEST set is empty, yet the jump to offset 3
(the STOP byte) succeeds — Jump only calls set_pc, which checks the code
bound and nothing else — and the run halts with success; no
InvalidJumpDestination trap exists anywhere in the executor. -/
theorem claim_C2_jump_ignores_jumpdest_set (keccak : List Nat → Nat) :
    collect_jumpdests [0x60, 0x03, 0x56, 0x00] = [] ∧
    execute_code keccak 7 [0x60, 0x03, 0x56, 0x00] 100 50 =
      .ok { success := true, return_data := [], gas_used := 13
            gas_remaining := 87, logs := [] } :=
  ⟨rfl, rfl⟩

/-- Claim C3: U256 add, sub and mul wrap modulo 2^256.  The code refutes
this: the operators act on the unbounded BigUint, so add(2^255, 2^255)
yields 2^256 itself rather than the wrapped 0, mul(2^128, 2^128) also
escapes the 256-bit range, and sub(0, 1) panics on BigUint underflow
instead of wrapping to 2^256 − 1. -/
theorem claim_C3_arithmetic_does_not_wrap :
    Uint256.add (2 ^ 255) (2 ^ 255) = 2 ^ 256 ∧
    (2 ^ 255 + 2 ^ 255) % 2 ^ 256 = 0 ∧
    (2 : Nat) ^ 256 ≠ 0 ∧
    Uint256.sub 0 1 = none ∧
    Uint256.mul (2 ^ 128) (2 ^ 128) = 2 ^ 256 := by
  refine ⟨by norm_num [Uint256.add], by norm_num, by positivity, rfl,
    by norm_num [Uint256.mul]⟩

/-- Claim C4: with the gas limit one below the requirement the run traps
OutOfGas and yields a result struct with success = false,
gas_used = gas_limit and gas_remaining = 0.  The code refutes the result
part: PUSH1 2, PUSH1 3, ADD, STOP needs exactly 11 gas (first conjunct);
run at limit 10, execute propagates Err(Gas(OutOfGas{required: 2,
available: 1})) — no result struct is produced, the failed charge leaves
1 gas in the meter (not 0) and only 9 of the 10 gas counted as used. -/
theorem claim_C4_out_of_gas_propagates_err (keccak : List Nat → Nat) :
    execute_code keccak 7 [0x60, 0x02, 0x60, 0x03, 0x01, 0x00] 11 50 =
      .ok { success := true, return_data := [], gas_used := 11
            gas_remaining := 0, logs := [] } ∧
    execute_code keccak 7 [0x60, 0x02, 0x60, 0x03, 0x01, 0x00] 10 50 =
      .err (.Gas (.OutOfGas 2 1)) :=
  ⟨rfl, rfl⟩

/-- Claim C5: the dynamic EXP gas equals 10 + 10·byte_length(exponent),
the exponent being the operand at depth 1 at decode time, peeked without
mutation.  The code refutes the amount: with base 2 at depth 0 and exponent
255 at depth 1, calculate_gas_cost peeks depth 0 — the base — and charges
10 + 10·bit_length(2) = 30, whereas the claimed formula on the exponent 255
gives 10 + 10·1 = 20. -/
theorem claim_C5_exp_gas_misreads_operand :
    calculate_gas_cost exp_gas_context .Exp = .ok 30 ∧
    Stack.peek_at exp_gas_context.stack 0 = .ok 2 ∧
    Stack.peek_at exp_gas_context.stack 1 = .ok 255 ∧
    spec_exp_gas_cost 255 = 20 := by
  have h2 : Uint256.bits 2 = 2 := by simp [Uint256.bits, Nat.log2]
  have h255 : Uint256.bits 255 = 8 := by simp [Uint256.bits, Nat.log2]
  refine ⟨?_, rfl, rfl, ?_⟩
  · have hshape : calculate_gas_cost exp_gas_context .Exp =
        .ok (10 + Uint256.bits 2 * 10) := rfl
    rw [hshape, h2]
  · have hshape : spec_exp_gas_cost 255 =
        10 + 10 * ((Uint256.bits 255 + 7) / 8) := rfl
    rw [hshape, h255]

/-- Claim C6: SLT and SGT compare as 256-bit two's-complement signed
integers, pushing 1 when the signed relation holds.  The code refutes this:
both arms compare the raw BigUints, so SLT on a = 2^255 (signed value
−2^255) and b = 0 pushes 0 although the signed relation a < b holds, and
SGT on a = 0, b = 2^255 pushes 0 although signed a > b holds. -/
theorem claim_C6_slt_sgt_are_unsigned (keccak : List Nat → Nat) :
    stack_of (execute_opcode keccak slt_context .Slt) = some [0] ∧
    spec_signed_view (2 ^ 255) < spec_signed_view 0 ∧
    stack_of (execute_opcode keccak sgt_context .Sgt) = some [0] ∧
    spec_signed_view 0 > spec_signed_view (2 ^ 255) := by
  refine ⟨rfl, ?_, rfl, ?_⟩ <;> norm_num [spec_signed_view]

/-- Claim C7: LOG_n pops the memory offset and size first and then the n
topics.  The code refutes the order: running PUSH1 3, PUSH1 0, PUSH1 5,
LOG1, STOP (stack at LOG1, top first: 5, 0, 3) appends the entry with
topics [5] and data [0,0,0] — the topic was popped first (5), then offset 0
and size 3; under the claimed order (offset 5, size 0, then topic 3) the
entry would have topics [3] and empty data.  The callee address 7 is
recorded as claimed. -/
theorem claim_C7_log_pops_topics_first (keccak : List Nat → Nat) :
    execute_code keccak 7 [0x60, 0x03, 0x60, 0x00, 0x60, 0x05, 0xa1, 0x00]
      5000 50 =
      .ok { success := true, return_data := [], gas_used := 764
            gas_remaining := 4236
            logs := [{ address := 7, topics := [5], data := [0, 0, 0] }] } :=
  rfl

theorem lookup_filter_ne {α : Type} (k : Nat) (m : List (Nat × α)) :
    (m.filter (fun p => p.fst != k)).lookup k = none := by
  induction m with
  | nil => rfl
  | cons p m ih =>
    by_cases h : p.fst = k
    · simpa [List.filter_cons, h] using ih
    · have hb : (k == p.fst) = false := by
        simp [Ne.symm h]
      simp [List.filter_cons, h, List.lookup, hb, ih]

theorem filter_ne_idem {α : Type} (k : Nat) (m : List (Nat × α)) :
    (m.filter (fun p => p.fst != k)).filter (fun p => p.fst != k) =
      m.filter (fun p => p.fst != k) := by
  induction m with
  | nil => rfl
  | cons p m ih =>
    by_cases h : p.fst = k
    · simp [List.filter_cons, h, ih]
    · simp [List.filter_cons, h, ih]

theorem filter_ne_cons_self {α : Type} (k : Nat) (x : α)
    (m : List (Nat × α)) :
    (((k, x) :: m).filter (fun p => p.fst != k)) =
      m.filter (fun p => p.fst != k) := by
  simp [List.filter_cons]

theorem lookup_cons_self {α : Type} (a : Nat) (x : α) (m : List (Nat × α)) :
    ((a, x) :: m).lookup a = some x := by
  simp [List.lookup]

theorem account_set_nonzero_then_zero (acc : Account) (key v : Uint256)
    (hv : v ≠ 0) :
    (acc.set_storage key v).set_storage key 0 =
      { acc with storage := assocErase key acc.storage } := by
  unfold Account.set_storage
  rw [if_neg hv, if_pos rfl]
  unfold assocInsert assocErase
  rw [filter_ne_cons_self, filter_ne_idem]

theorem account_set_zero_idem (acc : Account) (key : Uint256) :
    (acc.set_storage key 0).set_storage key 0 = acc.set_storage key 0 := by
  unfold Account.set_storage
  rw [if_pos rfl, if_pos rfl]
  unfold assocErase
  rw [filter_ne_idem]

/-- Claim C8: the SSTORE gas charge follows the current/new case analysis
with sstore_set = 20000, sstore_reset = 5000 and sstore_clear = 15000,
with the key peeked at depth 0 and the value at depth 1.  Confirmed against
calculate_gas_cost; the peek cannot mutate the stack since the cost is a
pure function of the context. -/
theorem calculate_gas_cost_sstore_eq (c : ExecutionContext) :
    calculate_gas_cost c .Sstore =
      (match Stack.peek_at c.stack 0, Stack.peek_at c.stack 1 with
        | .ok key, .ok value =>
          if c.storage.get_storage c.address key = value then
            if c.storage.get_storage c.address key = 0 then
              Except.ok c.gas_meter.costs.sstore_clear
            else Except.ok c.gas_meter.costs.sstore_reset
          else if c.storage.get_storage c.address key = 0 then
            Except.ok c.gas_meter.costs.sstore_set
          else if value = 0 then Except.ok c.gas_meter.costs.sstore_clear
          else Except.ok c.gas_meter.costs.sstore_reset
        | _, _ => Except.ok c.gas_meter.costs.sstore) := rfl

theorem claim_C8_sstore_gas_schedule (c : ExecutionContext)
    (key value : Uint256) (rest : Stack)
    (hstack : c.stack = key :: value :: rest)
    (hc : c.gas_meter.costs = GasCosts.default) :
    Stack.peek_at c.stack 0 = .ok key ∧
    Stack.peek_at c.stack 1 = .ok value ∧
    calculate_gas_cost c .Sstore = .ok
      (if value = c.storage.get_storage c.address key then
        (if c.storage.get_storage c.address key ≠ 0 then 5000 else 15000)
       else if c.storage.get_storage c.address key = 0 then 20000
       else if value = 0 then 15000
       else 5000) := by
  refine ⟨by rw [hstack]; rfl, by rw [hstack]; rfl, ?_⟩
  rw [calculate_gas_cost_sstore_eq c, hstack]
  show (if c.storage.get_storage c.address key = value then
          if c.storage.get_storage c.address key = 0 then
            Except.ok c.gas_meter.costs.sstore_clear
          else Except.ok c.gas_meter.costs.sstore_reset
        else if c.storage.get_storage c.address key = 0 then
          Except.ok c.gas_meter.costs.sstore_set
        else if value = 0 then Except.ok c.gas_meter.costs.sstore_clear
        else Except.ok c.gas_meter.costs.sstore_reset) = _
  rw [hc]
  by_cases hA : c.storage.get_storage c.address key = value
  · rw [if_pos hA, if_pos hA.symm]
    by_cases hB : c.storage.get_storage c.address key = 0
    · rw [if_pos hB, if_neg (not_not_intro hB)]
      rfl
    · rw [if_neg hB, if_pos hB]
      rfl
  · rw [if_neg hA,
      if_neg (show ¬ value = c.storage.get_storage c.address key from
        fun h => hA h.symm)]
    by_cases hB : c.storage.get_storage c.address key = 0
    · rw [if_pos hB, if_pos hB]
      rfl
    · rw [if_neg hB, if_neg hB]
      by_cases hC : value = 0
      · rw [if_pos hC, if_pos hC]
        rfl
      · rw [if_neg hC, if_neg hC]
        rfl

/-- Witness for claim C8 at a concrete context: empty storage, key 1 on
top, value 2 below; the slot is zero and changes, so the charge is
sstore_set = 20000. -/
theorem claim_C8_sstore_gas_schedule_witness :
    sstore_witness_context.stack = 1 :: 2 :: [] ∧
    sstore_witness_context.gas_meter.costs = GasCosts.default ∧
    (Stack.peek_at sstore_witness_context.stack 0 = .ok 1 ∧
     Stack.peek_at sstore_witness_context.stack 1 = .ok 2 ∧
     calculate_gas_cost sstore_witness_context .Sstore = .ok
      (if 2 = sstore_witness_context.storage.get_storage
            sstore_witness_context.address 1 then
        (if sstore_witness_context.storage.get_storage
            sstore_witness_context.address 1 ≠ 0 then 5000 else 15000)
       else if sstore_witness_context.storage.get_storage
            sstore_witness_context.address 1 = 0 then 20000
       else if (2 : Uint256) = 0 then 15000
       else 5000)) :=
  ⟨rfl, rfl,
    claim_C8_sstore_gas_schedule sstore_witness_context 1 2 [] rfl rfl⟩

/-- Claim C9: get_storage of an absent key is zero; set_storage with value
zero removes the entry, so after writing a non-zero value and then zero the
slot reads zero and the mapping no longer contains the key; and writing
zero is idempotent on the whole state.  Confirmed against the storage
layer. -/
theorem claim_C9_storage_zero_canonicalization (s : Storage) (a : Address)
    (key v : Uint256) (hv : v ≠ 0) :
    (Storage.contains_key s a key = false →
      Storage.get_storage s a key = 0) ∧
    Storage.get_storage
      (Storage.set_storage (Storage.set_storage s a key v) a key 0) a key
      = 0 ∧
    Storage.contains_key
      (Storage.set_storage (Storage.set_storage s a key v) a key 0) a key
      = false ∧
    Storage.set_storage (Storage.set_storage s a key 0) a key 0 =
      Storage.set_storage s a key 0 := by
  refine ⟨?_, ?_, ?_, ?_⟩
  · intro hno
    unfold Storage.contains_key at hno
    unfold Storage.get_storage
    cases hl : s.accounts.lookup a with
    | none => simp [hl]
    | some acc =>
      rw [hl] at hno
      unfold Account.get_storage
      cases hk : acc.storage.lookup key with
      | none => simp [hl, hk, Account.get_storage]
      | some w => simp [hk] at hno
  · simp only [Storage.set_storage, Storage.update_account,
      lookup_cons_self, Option.getD_some]
    rw [account_set_nonzero_then_zero _ _ _ hv]
    simp only [Storage.get_storage, lookup_cons_self]
    simp [Account.get_storage, assocErase, lookup_filter_ne]
  · simp only [Storage.set_storage, Storage.update_account,
      lookup_cons_self, Option.getD_some]
    rw [account_set_nonzero_then_zero _ _ _ hv]
    simp only [Storage.contains_key, lookup_cons_self]
    simp [assocErase, lookup_filter_ne]
  · simp only [Storage.set_storage, Storage.update_account,
      lookup_cons_self, Option.getD_some]
    rw [account_set_zero_idem]
    unfold accountsErase
    rw [filter_ne_cons_self, filter_ne_idem]

/-- Witness for claim C9 at the empty state with a = 1, key = 2, v = 3. -/
theorem claim_C9_storage_zero_canonicalization_witness :
    (3 : Uint256) ≠ 0 ∧
    ((Storage.contains_key Storage.new 1 2 = false →
      Storage.get_storage Storage.new 1 2 = 0) ∧
    Storage.get_storage
      (Storage.set_storage (Storage.set_storage Storage.new 1 2 3) 1 2 0) 1 2
      = 0 ∧
    Storage.contains_key
      (Storage.set_storage (Storage.set_storage Storage.new 1 2 3) 1 2 0) 1 2
      = false ∧
    Storage.set_storage (Storage.set_storage Storage.new 1 2 0) 1 2 0 =
      Storage.set_storage Storage.new 1 2 0) :=
  ⟨by decide, claim_C9_storage_zero_canonicalization Storage.new 1 2 3
    (by decide)⟩

/-- Claim C10: the Uint256 operations are partial: sub panics exactly when
the subtrahend exceeds the minuend, to_bytes_be panics exactly at 2^256 and
above, such values are constructible through add and mul from in-range
operands, and the to/from big-endian round-trip holds for every value below
2^256.  Confirmed against the embedding of the type. -/
theorem claim_C10_uint256_partiality :
    (∀ a b : Uint256, Uint256.sub a b = none ↔ a < b) ∧
    (∀ x : Uint256, Uint256.to_bytes_be x = none ↔ 2 ^ 256 ≤ x) ∧
    (∃ a b : Uint256, a < 2 ^ 256 ∧ b < 2 ^ 256 ∧ 2 ^ 256 ≤ Uint256.add a b) ∧
    (∃ a b : Uint256, a < 2 ^ 256 ∧ b < 2 ^ 256 ∧ 2 ^ 256 ≤ Uint256.mul a b) ∧
    (∀ x : Uint256, x < 2 ^ 256 →
      (Uint256.to_bytes_be x).map Uint256.from_bytes_be = some x) := by
  refine ⟨?_, ?_, ?_, ?_, ?_⟩
  · intro a b
    unfold Uint256.sub
    by_cases h : b ≤ a
    · rw [if_pos h]
      simpa using not_lt.mpr h
    · rw [if_neg h]
      simpa using not_le.mp h
  · intro x
    unfold Uint256.to_bytes_be
    by_cases h : x < 2 ^ 256
    · rw [if_pos h]
      simpa using not_le.mpr h
    · rw [if_neg h]
      simpa using not_lt.mp h
  · exact ⟨2 ^ 255, 2 ^ 255, by norm_num, by norm_num,
      by norm_num [Uint256.add]⟩
  · exact ⟨2 ^ 128, 2 ^ 128, by norm_num, by norm_num,
      by norm_num [Uint256.mul]⟩
  · intro x hx
    unfold Uint256.to_bytes_be
    rw [if_pos hx]
    show some (Uint256.from_bytes_be (natToBytesBE 32 x)) = some x
    have h256 : (2 : Nat) ^ (8 * 32) = 2 ^ 256 := by norm_num
    rw [from_bytes_be_natToBytesBE, h256, Nat.mod_eq_of_lt hx]

/-- Witness for claim C10 at concrete values: sub 5 7 panics since 5 < 7,
to_bytes_be of 2^256 panics, and the round-trip holds at 5. -/
theorem claim_C10_uint256_partiality_witness :
    Uint256.sub 5 7 = none ∧
    Uint256.to_bytes_be (2 ^ 256) = none ∧
    ((5 : Uint256) < 2 ^ 256 ∧
      (Uint256.to_bytes_be 5).map Uint256.from_bytes_be = some 5) :=
  ⟨(claim_C10_uint256_partiality.1 5 7).mpr (by norm_num),
    (claim_C10_uint256_partiality.2.1 (2 ^ 256)).mpr (by norm_num),
    ⟨by norm_num, claim_C10_uint256_partiality.2.2.2.2 5 (by norm_num)⟩⟩

end RustEVM
